import Mathlib

/-!
# The eyes bar plugin (`bar-plugin/eyes.c`)

A shallow embedding of the pointer-tracking core of the plugin: the clip
rectangle of `draw_eye`, the poll tick `timer_cb`, the eye-set rebuild
`setup_eyes` and the theme selection of `properties_load`.

Conventions.
* A `gint` is a mathematical integer (`Int`).  The functions embedded here only
  subtract, add and halve small pixel quantities; C leaves signed overflow
  undefined, so the embedding describes every execution the C semantics defines.
  `/` on `gint` is C's truncating division, `Int.tdiv`.
* A C array indexed by the eye number is a total map `Nat → Int`; a store is
  `Function.update`.
* GTK side effects are recorded as values: a call of `draw_eye` is a `DrawCall`,
  the arguments it passes to `gdk_pixbuf_composite` are a `Composite`, and a call
  of `load_theme` is the path it receives.
* `calculate_pupil_xy` (lines 63-111) works in double precision with `atan2`,
  `hypot`, `sin` and `cos`; the tick only forwards its result, so it enters the
  model of `timer_cb` as a parameter.
-/

namespace Eyes

/-! ## Constants -/

/-- GLib's `G_MAXINT`, the largest `gint` (32 bits). -/
def G_MAXINT : Int := 2147483647

/-- The macro `DEFAULTTHEME` (line 45). -/
def DEFAULTTHEME : String := "Tango"

/-! ## Data model -/

/-- The five geometry fields of `EyesPlugin` that `calculate_pupil_xy` and
`draw_eye` read. -/
structure EyeGeometry where
  eye_width : Int
  eye_height : Int
  pupil_width : Int
  pupil_height : Int
  wall_thickness : Int
deriving DecidableEq, Repr

/-- The fields of `EyesPlugin` used by the embedded functions. -/
structure EyesPlugin extends EyeGeometry where
  num_eyes : Int
  pointer_last_x : Nat → Int
  pointer_last_y : Nat → Int
  active_theme : Option String

/-- A `GdkRectangle`. -/
structure GdkRectangle where
  x : Int
  y : Int
  width : Int
  height : Int
deriving DecidableEq, Repr

/-- The pixel `(px, py)` lies in the rectangle: `x ≤ px < x + width` and
`y ≤ py < y + height`. -/
def GdkRectangle.contains (r : GdkRectangle) (px py : Int) : Prop :=
  r.x ≤ px ∧ px < r.x + r.width ∧ r.y ≤ py ∧ py < r.y + r.height

instance (r : GdkRectangle) (px py : Int) : Decidable (r.contains px py) := by
  unfold GdkRectangle.contains
  infer_instance

/-- Modelled from the spec: `gdk_rectangle_intersect` is GDK library code, absent
from the sources.  The spec has `draw_eye` intersect the target rectangle with the
socket bounds; this follows GDK 2: the result is `TRUE` and `dest` the overlap when
the overlap has positive width and height, otherwise the result is `FALSE`, the
width and height of `dest` are set to 0 and its `x` and `y` are left as they
were. -/
def gdk_rectangle_intersect (src1 src2 dest : GdkRectangle) : Bool × GdkRectangle :=
  let dest_x := max src1.x src2.x
  let dest_y := max src1.y src2.y
  let dest_x2 := min (src1.x + src1.width) (src2.x + src2.width)
  let dest_y2 := min (src1.y + src1.height) (src2.y + src2.height)
  if dest_x2 > dest_x ∧ dest_y2 > dest_y then
    (true, { x := dest_x, y := dest_y, width := dest_x2 - dest_x, height := dest_y2 - dest_y })
  else
    (false, { dest with width := 0, height := 0 })

/-- The arguments `draw_eye` hands to `gdk_pixbuf_composite`: the destination
rectangle and the offset of the pupil image, for eye `eye_num`. -/
structure Composite where
  eye_num : Nat
  dest : GdkRectangle
  offset_x : Int
  offset_y : Int
deriving DecidableEq, Repr

/-- The pixels of the socket copy that `gdk_pixbuf_composite` may write: those of
its destination rectangle. -/
def Composite.writes (c : Composite) (px py : Int) : Prop :=
  c.dest.contains px py

/-- The target rectangle `r1` of `draw_eye` (lines 125-128). -/
def draw_eye_r1 (eyes : EyeGeometry) (pupil_x pupil_y : Int) : GdkRectangle :=
  { x := pupil_x - Int.tdiv eyes.pupil_width 2
    y := pupil_y - Int.tdiv eyes.pupil_height 2
    width := eyes.pupil_width
    height := eyes.pupil_height }

/-- The socket bounds `r2` of `draw_eye` (lines 129-132). -/
def draw_eye_r2 (eyes : EyeGeometry) : GdkRectangle :=
  { x := 0, y := 0, width := eyes.eye_width, height := eyes.eye_height }

/-- The function `draw_eye` (lines 115-146).  `rect` is the content of the
uninitialised local `rect` on entry; the result is the compositing request. -/
def draw_eye (eyes : EyeGeometry) (eye_num : Nat) (pupil_x pupil_y : Int)
    (rect : GdkRectangle) : Composite :=
  let r1 := draw_eye_r1 eyes pupil_x pupil_y
  let r2 := draw_eye_r2 eyes
  let rect := (gdk_rectangle_intersect r1 r2 rect).2
  { eye_num := eye_num
    dest := rect
    offset_x := pupil_x - Int.tdiv eyes.pupil_width 2
    offset_y := pupil_y - Int.tdiv eyes.pupil_height 2 }

/-! ## The poll tick -/

/-- One call `draw_eye (eyes, eye_num, pupil_x, pupil_y)`. -/
structure DrawCall where
  eye_num : Nat
  pupil_x : Int
  pupil_y : Int
deriving DecidableEq, Repr

/-- What a tick reads from outside the plugin: `GTK_WIDGET_REALIZED (eyes->eyes[i])`,
the position `gdk_window_get_pointer` reports for the window of eye `i`, and the
result of `calculate_pupil_xy` for the geometry, the pointer position and the
widget of eye `i`. -/
structure TickEnv where
  realized : Nat → Bool
  pointer : Nat → Int × Int
  calculate_pupil_xy : EyeGeometry → Int → Int → Nat → Int × Int

/-- The `for` loop of `timer_cb` (lines 157-178) from index `i` with `n`
iterations left; `calls` are the `draw_eye` calls made so far. -/
def timer_cb_loop (env : TickEnv) : Nat → Nat → EyesPlugin → List DrawCall →
    EyesPlugin × List DrawCall
  | 0, _, eyes, calls => (eyes, calls)
  | n + 1, i, eyes, calls =>
    if env.realized i then
      let x := (env.pointer i).1
      let y := (env.pointer i).2
      if x ≠ eyes.pointer_last_x i ∨ y ≠ eyes.pointer_last_y i then
        let pupil := env.calculate_pupil_xy eyes.toEyeGeometry x y i
        let calls := calls ++ [{ eye_num := i, pupil_x := pupil.1, pupil_y := pupil.2 }]
        let eyes := { eyes with pointer_last_x := Function.update eyes.pointer_last_x i x }
        let eyes := { eyes with pointer_last_y := Function.update eyes.pointer_last_y i y }
        timer_cb_loop env n (i + 1) eyes calls
      else
        (eyes, calls)
    else
      timer_cb_loop env n (i + 1) eyes calls

/-- The outcome of `timer_cb`: the plugin state after the tick, the `draw_eye`
calls in the order made, and the returned `gint`. -/
structure TickResult where
  eyes : EyesPlugin
  calls : List DrawCall
  ret : Bool

/-- The function `timer_cb` (lines 150-181). -/
def timer_cb (env : TickEnv) (eyes : EyesPlugin) : TickResult :=
  let r := timer_cb_loop env eyes.num_eyes.toNat 0 eyes []
  { eyes := r.1, calls := r.2, ret := true }

/-! ## Rebuilding the eye set -/

/-- The `for` loop of `setup_eyes` (lines 220-246) from index `i` with `n`
iterations left.  Widget creation, packing and alignment act on GTK only. -/
def setup_eyes_loop : Nat → Nat → EyesPlugin → List DrawCall → EyesPlugin × List DrawCall
  | 0, _, eyes, calls => (eyes, calls)
  | n + 1, i, eyes, calls =>
    let eyes := { eyes with pointer_last_x := Function.update eyes.pointer_last_x i G_MAXINT }
    let eyes := { eyes with pointer_last_y := Function.update eyes.pointer_last_y i G_MAXINT }
    let calls := calls ++
      [{ eye_num := i, pupil_x := Int.tdiv eyes.eye_width 2, pupil_y := Int.tdiv eyes.eye_height 2 }]
    setup_eyes_loop n (i + 1) eyes calls

/-- The function `setup_eyes` (lines 202-249): the two position arrays are
allocated afresh by `g_new0` (all zero), then every eye gets the sentinel and a
centred frame. -/
def setup_eyes (eyes : EyesPlugin) : EyesPlugin × List DrawCall :=
  let eyes := { eyes with pointer_last_x := fun _ => 0 }
  let eyes := { eyes with pointer_last_y := fun _ => 0 }
  setup_eyes_loop eyes.num_eyes.toNat 0 eyes []

/-! ## Theme selection -/

/-- GLib's `g_build_filename` for a directory and one element. -/
def g_build_filename (dir name : String) : String :=
  dir ++ "/" ++ name

/-- The function `properties_load` (lines 185-198).  `THEMESDIR` is the build-time
macro and `load_theme` the loader of `themes.c`, both outside the sources; the
loader yields the plugin with the theme assets and whether loading succeeded.  The
result is the plugin after the call and the paths `load_theme` was called with. -/
def properties_load (THEMESDIR : String)
    (load_theme : EyesPlugin → String → EyesPlugin × Bool) (eyes : EyesPlugin) :
    EyesPlugin × List String :=
  let path :=
    match eyes.active_theme with
    | some theme => g_build_filename THEMESDIR theme
    | none => g_build_filename THEMESDIR DEFAULTTHEME
  ((load_theme eyes path).1, [path])

/-- The handler `combobox_changed` (lines 286-304): the selected text becomes the
active theme (`g_strdup` of `NULL` is `NULL`), the theme is loaded and the eye
set rebuilt.  Starting the timer and the size request act on GTK only.  The
result is the plugin, the paths given to `load_theme` and the `draw_eye` calls. -/
def combobox_changed (THEMESDIR : String)
    (load_theme : EyesPlugin → String → EyesPlugin × Bool) (selected : Option String)
    (eyes : EyesPlugin) : EyesPlugin × List String × List DrawCall :=
  let eyes := { eyes with active_theme := selected }
  let loaded := properties_load THEMESDIR load_theme eyes
  let rebuilt := setup_eyes loaded.1
  (rebuilt.1, loaded.2, rebuilt.2)

/-! ## Reading a tick -/

/-- Eye `i` is realized and the pointer position read for it equals the stored
`(pointer_last_x[i], pointer_last_y[i])`: the tick takes the `else` branch. -/
def TickEnv.unchanged (env : TickEnv) (eyes : EyesPlugin) (i : Nat) : Bool :=
  env.realized i &&
    decide ((env.pointer i).1 = eyes.pointer_last_x i ∧ (env.pointer i).2 = eyes.pointer_last_y i)

/-- The lowest index below `num_eyes` of a realized eye whose pointer position
equals its stored one, `num_eyes` if there is none. -/
def first_unchanged (env : TickEnv) (eyes : EyesPlugin) : Nat :=
  ((List.range eyes.num_eyes.toNat).find? (env.unchanged eyes)).getD eyes.num_eyes.toNat

/-- The call `draw_eye (eyes, i, pupil_x, pupil_y)` with the pupil position that
`calculate_pupil_xy` gives for the pointer position of eye `i`. -/
def solved_call (env : TickEnv) (eyes : EyesPlugin) (i : Nat) : DrawCall :=
  { eye_num := i
    pupil_x := (env.calculate_pupil_xy eyes.toEyeGeometry (env.pointer i).1 (env.pointer i).2 i).1
    pupil_y := (env.calculate_pupil_xy eyes.toEyeGeometry (env.pointer i).1 (env.pointer i).2 i).2 }

/-- The state a tick leaves when it stops at index `j` having started at `i`:
realized eyes in `[i, j)` hold their pointer position, all else is as before. -/
def stored_upto (env : TickEnv) (eyes : EyesPlugin) (i j : Nat) : EyesPlugin :=
  { eyes with
    pointer_last_x := fun k =>
      if i ≤ k ∧ k < j ∧ env.realized k = true then (env.pointer k).1 else eyes.pointer_last_x k
    pointer_last_y := fun k =>
      if i ≤ k ∧ k < j ∧ env.realized k = true then (env.pointer k).2 else eyes.pointer_last_y k }

/-! ## Concrete inputs -/

/-- The geometry of the end-to-end scenario: a 32x16 socket, an 8x8 pupil and a
wall of 2. -/
def wide_geometry : EyeGeometry :=
  { eye_width := 32, eye_height := 16, pupil_width := 8, pupil_height := 8, wall_thickness := 2 }

/-- A stand-in for `calculate_pupil_xy` that always answers the socket centre. -/
def centre_solver (g : EyeGeometry) (_x _y : Int) (_widget : Nat) : Int × Int :=
  (Int.tdiv g.eye_width 2, Int.tdiv g.eye_height 2)

/-- Two eyes; eye 0 last saw the pointer at `(5, 7)`, eye 1 at `(0, 0)`. -/
def two_eyes : EyesPlugin :=
  { toEyeGeometry := wide_geometry
    num_eyes := 2
    pointer_last_x := fun i => if i = 0 then 5 else 0
    pointer_last_y := fun i => if i = 0 then 7 else 0
    active_theme := some "Tango" }

/-- Both eyes realized; the pointer is still at `(5, 7)` for eye 0 and has moved
to `(40, 9)` for eye 1. -/
def env_first_still : TickEnv :=
  { realized := fun _ => true
    pointer := fun i => if i = 0 then (5, 7) else (40, 9)
    calculate_pupil_xy := centre_solver }

/-- Three eyes of the wide geometry; eye 2 last saw the pointer at `(11, 12)`. -/
def three_eyes : EyesPlugin :=
  { toEyeGeometry := wide_geometry
    num_eyes := 3
    pointer_last_x := fun i => if i = 2 then 11 else 0
    pointer_last_y := fun i => if i = 2 then 12 else 0
    active_theme := none }

/-- Eyes 0 and 2 realized, eye 1 not; the pointer has moved for every eye: it is
at `(3, 4)` for eye 0 and at `(13, 12)` for the others. -/
def env_middle_hidden : TickEnv :=
  { realized := fun i => i != 1
    pointer := fun i => if i = 0 then (3, 4) else (13, 12)
    calculate_pupil_xy := centre_solver }

/-- One eye of the wide geometry. -/
def one_eye : EyesPlugin :=
  { toEyeGeometry := wide_geometry
    num_eyes := 1
    pointer_last_x := fun _ => 0
    pointer_last_y := fun _ => 0
    active_theme := some "Tango" }

/-- Every eye realized and the pointer reported at `(G_MAXINT, G_MAXINT)`. -/
def env_at_sentinel : TickEnv :=
  { realized := fun _ => true
    pointer := fun _ => (G_MAXINT, G_MAXINT)
    calculate_pupil_xy := centre_solver }

/-- Every eye realized and the pointer reported at `(0, 0)`. -/
def env_at_origin : TickEnv :=
  { realized := fun _ => true
    pointer := fun _ => (0, 0)
    calculate_pupil_xy := centre_solver }

/-- A themes directory, standing for the build-time `THEMESDIR`. -/
def themes_dir : String := "/usr/share/blade/eyes/themes"

/-- A plugin whose active theme is named `Missing`. -/
def missing_theme_eyes : EyesPlugin :=
  { one_eye with active_theme := some "Missing" }

/-- A loader for which every theme fails to load and the plugin stays as it is. -/
def failing_loader (eyes : EyesPlugin) (_path : String) : EyesPlugin × Bool :=
  (eyes, false)

/-! ## Helper lemmas -/

theorem unchanged_update (env : TickEnv) (eyes : EyesPlugin) (i k : Nat) (x y : Int)
    (h : k ≠ i) :
    env.unchanged
      { eyes with
        pointer_last_x := Function.update eyes.pointer_last_x i x
        pointer_last_y := Function.update eyes.pointer_last_y i y } k
      = env.unchanged eyes k := by
  simp [TickEnv.unchanged, Function.update_noteq h]

theorem stored_upto_self (env : TickEnv) (eyes : EyesPlugin) (i : Nat) :
    stored_upto env eyes i i = eyes := by
  have hx : (fun k => if i ≤ k ∧ k < i ∧ env.realized k = true then (env.pointer k).1
      else eyes.pointer_last_x k) = eyes.pointer_last_x := by
    funext k
    rw [if_neg (by omega)]
  have hy : (fun k => if i ≤ k ∧ k < i ∧ env.realized k = true then (env.pointer k).2
      else eyes.pointer_last_y k) = eyes.pointer_last_y := by
    funext k
    rw [if_neg (by omega)]
  simp [stored_upto, hx, hy]

theorem stored_upto_step (env : TickEnv) (eyes : EyesPlugin) (i j : Nat) (hij : i < j)
    (hr : env.realized i = true) :
    stored_upto env
      { eyes with
        pointer_last_x := Function.update eyes.pointer_last_x i (env.pointer i).1
        pointer_last_y := Function.update eyes.pointer_last_y i (env.pointer i).2 } (i + 1) j
      = stored_upto env eyes i j := by
  simp only [stored_upto]
  congr 1
  · funext k
    by_cases hk : k = i
    · subst hk
      simp [hij, hr]
    · simp only [Function.update_noteq hk]
      have : (i + 1 ≤ k ∧ k < j ∧ env.realized k = true) ↔ (i ≤ k ∧ k < j ∧ env.realized k = true) := by
        constructor
        · rintro ⟨h1, h2, h3⟩; exact ⟨by omega, h2, h3⟩
        · rintro ⟨h1, h2, h3⟩; exact ⟨by omega, h2, h3⟩
      simp only [this]
  · funext k
    by_cases hk : k = i
    · subst hk
      simp [hij, hr]
    · simp only [Function.update_noteq hk]
      have : (i + 1 ≤ k ∧ k < j ∧ env.realized k = true) ↔ (i ≤ k ∧ k < j ∧ env.realized k = true) := by
        constructor
        · rintro ⟨h1, h2, h3⟩; exact ⟨by omega, h2, h3⟩
        · rintro ⟨h1, h2, h3⟩; exact ⟨by omega, h2, h3⟩
      simp only [this]

theorem stored_upto_skip (env : TickEnv) (eyes : EyesPlugin) (i j : Nat)
    (hr : env.realized i = false) :
    stored_upto env eyes (i + 1) j = stored_upto env eyes i j := by
  simp only [stored_upto]
  have : ∀ k, (i + 1 ≤ k ∧ k < j ∧ env.realized k = true) ↔
      (i ≤ k ∧ k < j ∧ env.realized k = true) := by
    intro k
    constructor
    · rintro ⟨h1, h2, h3⟩; exact ⟨by omega, h2, h3⟩
    · rintro ⟨h1, h2, h3⟩
      refine ⟨?_, h2, h3⟩
      rcases Nat.eq_or_lt_of_le h1 with h | h
      · subst h; simp [hr] at h3
      · omega
  simp only [this]

theorem timer_cb_loop_spec (env : TickEnv) :
    ∀ (n i : Nat) (eyes : EyesPlugin) (calls : List DrawCall) (j : Nat),
      i ≤ j → j ≤ i + n →
      (∀ k, i ≤ k → k < j → env.unchanged eyes k = false) →
      (j < i + n → env.unchanged eyes j = true) →
      timer_cb_loop env n i eyes calls =
        (stored_upto env eyes i j,
          calls ++ ((List.range' i (j - i)).filter env.realized).map (solved_call env eyes)) := by
  intro n
  induction n with
  | zero =>
    intro i eyes calls j hij hjn _ _
    have hj : j = i := by omega
    subst hj
    simp [timer_cb_loop, stored_upto_self]
  | succ n ih =>
    intro i eyes calls j hij hjn hlt hj
    rcases Nat.eq_or_lt_of_le hij with heq | hlt2
    · subst heq
      have hu := hj (by omega)
      simp only [TickEnv.unchanged, Bool.and_eq_true, decide_eq_true_eq] at hu
      obtain ⟨hr, hx, hy⟩ := hu
      simp [timer_cb_loop, stored_upto_self, hr, hx.symm, hy.symm]
    · have hu := hlt i (Nat.le_refl i) hlt2
      have hsplit : j - i = (j - (i + 1)) + 1 := by omega
      by_cases hr : env.realized i = true
      · have hch : (env.pointer i).1 ≠ eyes.pointer_last_x i ∨
            (env.pointer i).2 ≠ eyes.pointer_last_y i := by
          simp only [TickEnv.unchanged, hr, Bool.true_and, decide_eq_false_iff_not] at hu
          by_contra hcon
          push_neg at hcon
          exact hu hcon
        rw [timer_cb_loop, if_pos hr, if_pos hch]
        rw [ih (i + 1) _ _ j (by omega) (by omega)
          (fun k hk1 hk2 => by
            rw [unchanged_update env eyes i k _ _ (by omega)]
            exact hlt k (by omega) hk2)
          (fun hk => by
            rw [unchanged_update env eyes i j _ _ (by omega)]
            exact hj (by omega))]
        rw [stored_upto_step env eyes i j hlt2 hr, hsplit, List.range'_succ]
        simp [List.filter_cons, hr, solved_call]
      · have hr2 : env.realized i = false := by simpa using hr
        rw [timer_cb_loop, if_neg hr]
        rw [ih (i + 1) eyes calls j (by omega) (by omega)
          (fun k hk1 hk2 => hlt k (by omega) hk2) (fun hk => hj (by omega))]
        rw [stored_upto_skip env eyes i j hr2, hsplit, List.range'_succ]
        simp [List.filter_cons, hr2]

theorem find_range_spec (p : Nat → Bool) (N : Nat) :
    ((List.range N).find? p).getD N ≤ N ∧
      (∀ k, k < ((List.range N).find? p).getD N → p k = false) ∧
      (((List.range N).find? p).getD N < N → p (((List.range N).find? p).getD N) = true) := by
  induction N with
  | zero => simp
  | succ N ih =>
    rw [List.range_succ, List.find?_append]
    cases hf : (List.range N).find? p with
    | some b =>
      have hb : b < N := List.mem_range.mp (List.mem_of_find?_eq_some hf)
      have hpb : p b = true := List.find?_some hf
      rw [hf] at ih
      simp only [Option.or_some, Option.getD_some] at ih ⊢
      exact ⟨by omega, ih.2.1, fun _ => hpb⟩
    | none =>
      rw [hf] at ih
      simp only [Option.none_or, Option.getD_none] at ih ⊢
      by_cases hN : p N = true
      · simp only [List.find?_cons_of_pos _ hN, Option.getD_some]
        exact ⟨by omega, ih.2.1, fun _ => hN⟩
      · simp only [List.find?_cons_of_neg _ hN, List.find?_nil, Option.getD_none]
        refine ⟨Nat.le_refl _, ?_, fun h => absurd h (Nat.lt_irrefl _)⟩
        intro k hk
        rcases Nat.eq_or_lt_of_le (Nat.lt_succ_iff.mp hk) with h | h
        · subst h; simpa using hN
        · exact ih.2.1 k h

theorem first_unchanged_spec (env : TickEnv) (eyes : EyesPlugin) :
    first_unchanged env eyes ≤ eyes.num_eyes.toNat ∧
      (∀ k, k < first_unchanged env eyes → env.unchanged eyes k = false) ∧
      (first_unchanged env eyes < eyes.num_eyes.toNat →
        env.unchanged eyes (first_unchanged env eyes) = true) :=
  find_range_spec (env.unchanged eyes) eyes.num_eyes.toNat

theorem timer_cb_loop_eq (env : TickEnv) (eyes : EyesPlugin) :
    timer_cb_loop env eyes.num_eyes.toNat 0 eyes [] =
      (stored_upto env eyes 0 (first_unchanged env eyes),
        ((List.range (first_unchanged env eyes)).filter env.realized).map (solved_call env eyes)) := by
  obtain ⟨h1, h2, h3⟩ := first_unchanged_spec env eyes
  rw [timer_cb_loop_spec env _ 0 eyes [] (first_unchanged env eyes) (Nat.zero_le _) (by omega)
    (fun k _ hk => h2 k hk) (fun hk => h3 (by omega))]
  simp [List.range_eq_range']

theorem stored_upto_hidden (env : TickEnv) (eyes : EyesPlugin) (i j : Nat)
    (h : ∀ k, i ≤ k → k < j → env.realized k = false) :
    stored_upto env eyes i j = eyes := by
  have hx : (fun k => if i ≤ k ∧ k < j ∧ env.realized k = true then (env.pointer k).1
      else eyes.pointer_last_x k) = eyes.pointer_last_x := by
    funext k
    rw [if_neg]
    rintro ⟨h1, h2, h3⟩
    rw [h k h1 h2] at h3
    exact Bool.noConfusion h3
  have hy : (fun k => if i ≤ k ∧ k < j ∧ env.realized k = true then (env.pointer k).2
      else eyes.pointer_last_y k) = eyes.pointer_last_y := by
    funext k
    rw [if_neg]
    rintro ⟨h1, h2, h3⟩
    rw [h k h1 h2] at h3
    exact Bool.noConfusion h3
  simp [stored_upto, hx, hy]

theorem filter_range_hidden (realized : Nat → Bool) (j : Nat)
    (h : ∀ k, k < j → realized k = false) :
    (List.range j).filter realized = [] := by
  rw [List.filter_eq_nil_iff]
  intro k hk
  rw [h k (List.mem_range.mp hk)]
  exact Bool.false_ne_true

/-- The state `setup_eyes` builds: eyes in `[i, i + n)` hold the sentinel. -/
theorem setup_eyes_loop_spec :
    ∀ (n i : Nat) (eyes : EyesPlugin) (calls : List DrawCall),
      setup_eyes_loop n i eyes calls =
        ({ eyes with
            pointer_last_x := fun k =>
              if i ≤ k ∧ k < i + n then G_MAXINT else eyes.pointer_last_x k
            pointer_last_y := fun k =>
              if i ≤ k ∧ k < i + n then G_MAXINT else eyes.pointer_last_y k },
          calls ++ (List.range' i n).map (fun k =>
            { eye_num := k
              pupil_x := Int.tdiv eyes.eye_width 2
              pupil_y := Int.tdiv eyes.eye_height 2 })) := by
  intro n
  induction n with
  | zero =>
    intro i eyes calls
    have hx : (fun k => if i ≤ k ∧ k < i then G_MAXINT else eyes.pointer_last_x k)
        = eyes.pointer_last_x := by
      funext k
      rw [if_neg (by omega)]
    have hy : (fun k => if i ≤ k ∧ k < i then G_MAXINT else eyes.pointer_last_y k)
        = eyes.pointer_last_y := by
      funext k
      rw [if_neg (by omega)]
    simp [setup_eyes_loop, hx, hy]
  | succ n ih =>
    intro i eyes calls
    rw [setup_eyes_loop, ih, List.range'_succ]
    simp only [List.map_cons, List.append_assoc, List.singleton_append, Prod.mk.injEq, and_true]
    congr 1
    · funext k
      by_cases hk : k = i
      · subst hk
        simp
      · simp only [Function.update_noteq hk]
        by_cases h1 : i + 1 ≤ k ∧ k < i + 1 + n
        · rw [if_pos h1, if_pos (by omega)]
        · rw [if_neg h1, if_neg (by omega)]
    · funext k
      by_cases hk : k = i
      · subst hk
        simp
      · simp only [Function.update_noteq hk]
        by_cases h1 : i + 1 ≤ k ∧ k < i + 1 + n
        · rw [if_pos h1, if_pos (by omega)]
        · rw [if_neg h1, if_neg (by omega)]

theorem setup_eyes_eq (eyes : EyesPlugin) :
    setup_eyes eyes =
      ({ eyes with
          pointer_last_x := fun k => if k < eyes.num_eyes.toNat then G_MAXINT else 0
          pointer_last_y := fun k => if k < eyes.num_eyes.toNat then G_MAXINT else 0 },
        (List.range eyes.num_eyes.toNat).map (fun k =>
          { eye_num := k
            pupil_x := Int.tdiv eyes.eye_width 2
            pupil_y := Int.tdiv eyes.eye_height 2 })) := by
  simp [setup_eyes, setup_eyes_loop_spec, List.range_eq_range']

/-! ## The model on concrete inputs -/

/-- An unrealized eye is passed over and the loop goes on: eyes 0 and 2 are
drawn, eye 1 keeps its stored position. -/
theorem timer_cb_middle_hidden :
    (timer_cb env_middle_hidden three_eyes).calls =
        [{ eye_num := 0, pupil_x := 16, pupil_y := 8 },
          { eye_num := 2, pupil_x := 16, pupil_y := 8 }] ∧
      (timer_cb env_middle_hidden three_eyes).eyes.pointer_last_x 0 = 3 ∧
      (timer_cb env_middle_hidden three_eyes).eyes.pointer_last_x 1 = 0 ∧
      (timer_cb env_middle_hidden three_eyes).eyes.pointer_last_x 2 = 13 := by
  decide

/-- A pupil at the right edge is clipped to the socket, and a pupil beyond it is
not drawn: the rectangle keeps the prior `x` and `y` and gets width and height 0. -/
theorem draw_eye_edge :
    (draw_eye wide_geometry 0 30 8 { x := -7, y := 99, width := 3, height := 4 }).dest =
        { x := 26, y := 4, width := 6, height := 8 } ∧
      (draw_eye wide_geometry 0 100 8 { x := -7, y := 99, width := 3, height := 4 }).dest =
        { x := -7, y := 99, width := 0, height := 0 } := by
  decide

/-! ## The poll tick: claims C1, C8, C9 -/

/-- Claim C1 (early exit of the poll tick): in every plugin state with at least one
eye, if eye 0 is realized and the pointer position read for it equals the stored
`(pointer_last_x[0], pointer_last_y[0])`, one tick makes no call of `draw_eye` at
all, whatever holds for the other eyes. -/
theorem timer_cb_early_exit (env : TickEnv) (eyes : EyesPlugin)
    (hN : 1 ≤ eyes.num_eyes) (hr : env.realized 0 = true)
    (hp : env.pointer 0 = (eyes.pointer_last_x 0, eyes.pointer_last_y 0)) :
    (timer_cb env eyes).calls = [] := by
  obtain ⟨n, hn⟩ : ∃ n, eyes.num_eyes.toNat = n + 1 := ⟨eyes.num_eyes.toNat - 1, by omega⟩
  simp [timer_cb, hn, timer_cb_loop, hr, hp]

/-- Witness of C1 on eyes = [unchanged, changed]: two realized eyes, the pointer
still at the stored position of eye 0 and moved for eye 1; no render call. -/
theorem timer_cb_early_exit_witness :
    1 ≤ two_eyes.num_eyes ∧ env_first_still.realized 0 = true ∧
      env_first_still.pointer 0 = (two_eyes.pointer_last_x 0, two_eyes.pointer_last_y 0) ∧
      env_first_still.pointer 1 ≠ (two_eyes.pointer_last_x 1, two_eyes.pointer_last_y 1) ∧
      (timer_cb env_first_still two_eyes).calls = [] :=
  ⟨by decide, by decide, by decide, by decide,
    timer_cb_early_exit env_first_still two_eyes (by decide) (by decide) (by decide)⟩

/-- Claim C8 (exact effect of one tick): let `j` be the lowest index of a realized
eye whose pointer position equals its stored one, `num_eyes` if there is none.
The tick calls `draw_eye` once for every realized eye below `j`, in increasing
order of index and with the pupil position `calculate_pupil_xy` gives for that
eye's pointer position; it stores that position for those eyes and leaves every
other stored position, and the rest of the plugin, as it was; it returns `TRUE`. -/
theorem timer_cb_exact (env : TickEnv) (eyes : EyesPlugin) :
    (first_unchanged env eyes ≤ eyes.num_eyes.toNat ∧
      (∀ k, k < first_unchanged env eyes →
        ¬ (env.realized k = true ∧
          env.pointer k = (eyes.pointer_last_x k, eyes.pointer_last_y k))) ∧
      (first_unchanged env eyes < eyes.num_eyes.toNat →
        env.realized (first_unchanged env eyes) = true ∧
          env.pointer (first_unchanged env eyes) =
            (eyes.pointer_last_x (first_unchanged env eyes),
              eyes.pointer_last_y (first_unchanged env eyes)))) ∧
    (timer_cb env eyes).calls =
      ((List.range (first_unchanged env eyes)).filter env.realized).map
        (fun i =>
          { eye_num := i
            pupil_x := (env.calculate_pupil_xy eyes.toEyeGeometry
              (env.pointer i).1 (env.pointer i).2 i).1
            pupil_y := (env.calculate_pupil_xy eyes.toEyeGeometry
              (env.pointer i).1 (env.pointer i).2 i).2 }) ∧
    (∀ k, (timer_cb env eyes).eyes.pointer_last_x k =
      if k < first_unchanged env eyes ∧ env.realized k = true then (env.pointer k).1
      else eyes.pointer_last_x k) ∧
    (∀ k, (timer_cb env eyes).eyes.pointer_last_y k =
      if k < first_unchanged env eyes ∧ env.realized k = true then (env.pointer k).2
      else eyes.pointer_last_y k) ∧
    (timer_cb env eyes).eyes.toEyeGeometry = eyes.toEyeGeometry ∧
    (timer_cb env eyes).eyes.num_eyes = eyes.num_eyes ∧
    (timer_cb env eyes).eyes.active_theme = eyes.active_theme ∧
    (timer_cb env eyes).ret = true := by
  obtain ⟨h1, h2, h3⟩ := first_unchanged_spec env eyes
  have hunch : ∀ k, env.unchanged eyes k = true ↔
      (env.realized k = true ∧
        env.pointer k = (eyes.pointer_last_x k, eyes.pointer_last_y k)) := by
    intro k
    simp [TickEnv.unchanged, Prod.ext_iff]
  refine ⟨⟨h1, ?_, ?_⟩, ?_, ?_, ?_, ?_, ?_, ?_, ?_⟩
  · intro k hk hc
    have := h2 k hk
    rw [(hunch k).mpr hc] at this
    exact Bool.noConfusion this
  · intro hj
    exact (hunch _).mp (h3 hj)
  · simp only [timer_cb, timer_cb_loop_eq]
    rfl
  · intro k
    simp [timer_cb, timer_cb_loop_eq, stored_upto]
  · intro k
    simp [timer_cb, timer_cb_loop_eq, stored_upto]
  · simp [timer_cb, timer_cb_loop_eq, stored_upto]
  · simp [timer_cb, timer_cb_loop_eq, stored_upto]
  · simp [timer_cb, timer_cb_loop_eq, stored_upto]
  · rfl

/-- Claim C9 (a repeated tick is a no-op): running `timer_cb` a second time with
the same realization flags and pointer positions makes no `draw_eye` call and
leaves the plugin, stored positions included, exactly as the first run left it. -/
theorem timer_cb_twice (env : TickEnv) (eyes : EyesPlugin) :
    (timer_cb env (timer_cb env eyes).eyes).calls = [] ∧
      (timer_cb env (timer_cb env eyes).eyes).eyes = (timer_cb env eyes).eyes := by
  obtain ⟨h1, h2, h3⟩ := first_unchanged_spec env eyes
  obtain ⟨g1, g2, g3⟩ := find_range_spec env.realized eyes.num_eyes.toNat
  generalize hj : first_unchanged env eyes = j at h1 h2 h3
  generalize hm : ((List.range eyes.num_eyes.toNat).find? env.realized).getD
    eyes.num_eyes.toNat = m at g1 g2 g3
  have hfirst : (timer_cb env eyes).eyes = stored_upto env eyes 0 j := by
    simp [timer_cb, timer_cb_loop_eq, hj]
  have hnum : (stored_upto env eyes 0 j).num_eyes = eyes.num_eyes := rfl
  have hloop : timer_cb_loop env eyes.num_eyes.toNat 0 (stored_upto env eyes 0 j) [] =
      (stored_upto env eyes 0 j, []) := by
    rw [timer_cb_loop_spec env _ 0 (stored_upto env eyes 0 j) [] m (Nat.zero_le _) (by omega)]
    · rw [stored_upto_hidden env _ 0 m (fun k _ hk => g2 k hk)]
      simp [← List.range_eq_range', filter_range_hidden env.realized m g2]
    · intro k _ hk
      simp [TickEnv.unchanged, g2 k hk]
    · intro hk
      have hrm : env.realized m = true := g3 (by omega)
      have hmj : m ≤ j := by
        by_contra hcon
        have hjr := h3 (by omega)
        simp only [TickEnv.unchanged, Bool.and_eq_true] at hjr
        have := g2 j (by omega)
        rw [hjr.1] at this
        exact Bool.noConfusion this
      rcases Nat.eq_or_lt_of_le hmj with heq | hlt
      · subst heq
        have hjr := h3 (by omega)
        simp only [TickEnv.unchanged, Bool.and_eq_true, decide_eq_true_eq] at hjr
        simp [TickEnv.unchanged, stored_upto, hrm, hjr.2.1, hjr.2.2]
      · simp [TickEnv.unchanged, stored_upto, hrm, hlt]
  rw [hfirst]
  simp [timer_cb, hnum, hloop]

/-! ## Rebuilding the eye set: claim C5 -/

/-- Counterexample to C5 as stated: after `setup_eyes` on one eye the stored
position is the sentinel, and a first tick whose pointer position is
`(G_MAXINT, G_MAXINT)` does not redraw the realized eye 0. -/
theorem setup_eyes_sentinel_sample_not_redrawn :
    (0 : Int) < one_eye.num_eyes ∧ env_at_sentinel.realized 0 = true ∧
      (setup_eyes one_eye).1.pointer_last_x 0 = G_MAXINT ∧
      (setup_eyes one_eye).1.pointer_last_y 0 = G_MAXINT ∧
      (timer_cb env_at_sentinel (setup_eyes one_eye).1).calls = [] := by
  decide

/-- Claim C5, amended: after `setup_eyes` every eye below `num_eyes` stores the
sentinel `G_MAXINT` in both coordinates, and if no realized eye reads the pointer
at `(G_MAXINT, G_MAXINT)`, the first tick calls `draw_eye` once for every realized
eye, in index order, whatever the pointer positions are. -/
theorem setup_eyes_forces_redraw (env : TickEnv) (eyes : EyesPlugin)
    (h : ∀ i, i < eyes.num_eyes.toNat → env.realized i = true →
      env.pointer i ≠ (G_MAXINT, G_MAXINT)) :
    (∀ i, i < eyes.num_eyes.toNat →
      (setup_eyes eyes).1.pointer_last_x i = G_MAXINT ∧
        (setup_eyes eyes).1.pointer_last_y i = G_MAXINT) ∧
    (timer_cb env (setup_eyes eyes).1).calls =
      ((List.range eyes.num_eyes.toNat).filter env.realized).map
        (fun i =>
          { eye_num := i
            pupil_x := (env.calculate_pupil_xy eyes.toEyeGeometry
              (env.pointer i).1 (env.pointer i).2 i).1
            pupil_y := (env.calculate_pupil_xy eyes.toEyeGeometry
              (env.pointer i).1 (env.pointer i).2 i).2 }) := by
  have hs : ∀ i, i < eyes.num_eyes.toNat →
      (setup_eyes eyes).1.pointer_last_x i = G_MAXINT ∧
        (setup_eyes eyes).1.pointer_last_y i = G_MAXINT := by
    intro i hi
    rw [setup_eyes_eq]
    exact ⟨if_pos hi, if_pos hi⟩
  refine ⟨hs, ?_⟩
  have hnum : (setup_eyes eyes).1.num_eyes = eyes.num_eyes := by simp [setup_eyes_eq]
  have hgeo : (setup_eyes eyes).1.toEyeGeometry = eyes.toEyeGeometry := by simp [setup_eyes_eq]
  obtain ⟨h1, _, h3⟩ := first_unchanged_spec env (setup_eyes eyes).1
  rw [hnum] at h1 h3
  have hj : first_unchanged env (setup_eyes eyes).1 = eyes.num_eyes.toNat := by
    by_contra hne
    have hlt : first_unchanged env (setup_eyes eyes).1 < eyes.num_eyes.toNat := by omega
    have hu := h3 hlt
    simp only [TickEnv.unchanged, Bool.and_eq_true, decide_eq_true_eq] at hu
    obtain ⟨hr, hx, hy⟩ := hu
    rw [(hs _ hlt).1] at hx
    rw [(hs _ hlt).2] at hy
    exact h _ hlt hr (Prod.ext hx hy)
  simp only [timer_cb, timer_cb_loop_eq, hj]
  simp [solved_call, hgeo]

/-- Witness of the amended C5: one eye rebuilt, the pointer at `(0, 0)`; the
first tick draws eye 0. -/
theorem setup_eyes_forces_redraw_witness :
    (setup_eyes one_eye).1.pointer_last_x 0 = G_MAXINT ∧
      (timer_cb env_at_origin (setup_eyes one_eye).1).calls =
        [{ eye_num := 0, pupil_x := 16, pupil_y := 8 }] :=
  ⟨((setup_eyes_forces_redraw env_at_origin one_eye (by decide)).1 0 (by decide)).1,
    (setup_eyes_forces_redraw env_at_origin one_eye (by decide)).2⟩

/-! ## Theme selection: claim C7 -/

/-- Counterexample to C7 as stated: with the active theme `Missing` and a loader
for which every load fails, `properties_load` calls `load_theme` for
`THEMESDIR/Missing` only; the load fails and `THEMESDIR/Tango` is never loaded. -/
theorem properties_load_no_fallback :
    (failing_loader missing_theme_eyes (g_build_filename themes_dir "Missing")).2 = false ∧
      (properties_load themes_dir failing_loader missing_theme_eyes).2 =
        [g_build_filename themes_dir "Missing"] ∧
      g_build_filename themes_dir DEFAULTTHEME ∉
        (properties_load themes_dir failing_loader missing_theme_eyes).2 := by
  decide

/-- Claim C7, amended: `properties_load` calls `load_theme` exactly once, whether
or not the load succeeds: with `THEMESDIR/<active_theme>` when an active theme is
set and with the default `THEMESDIR/Tango` only when it is `NULL`; the plugin is
left as that one call leaves it.  `combobox_changed` loads the selected theme in
the same way. -/
theorem properties_load_single_load (THEMESDIR : String)
    (load_theme : EyesPlugin → String → EyesPlugin × Bool) (eyes : EyesPlugin)
    (selected : Option String) :
    properties_load THEMESDIR load_theme eyes =
      ((load_theme eyes (g_build_filename THEMESDIR (eyes.active_theme.getD "Tango"))).1,
        [g_build_filename THEMESDIR (eyes.active_theme.getD "Tango")]) ∧
    (combobox_changed THEMESDIR load_theme selected eyes).2.1 =
      [g_build_filename THEMESDIR (selected.getD "Tango")] := by
  constructor
  · cases h : eyes.active_theme <;> simp [properties_load, h, DEFAULTTHEME]
  · cases selected <;> simp [combobox_changed, properties_load, DEFAULTTHEME]

/-! ## The eye renderer: claims C4 and C10 -/

/-- Claim C4 (clip rectangle of `draw_eye`): for every pupil position, geometry
and prior content of `rect`, the rectangle handed to `gdk_pixbuf_composite` holds
exactly the pixels common to the target rectangle
`{pupil_x - pupil_width/2, pupil_y - pupil_height/2, pupil_width, pupil_height}`
and the socket bounds `{0, 0, eye_width, eye_height}`; each of its pixels has
`0 ≤ px < eye_width` and `0 ≤ py < eye_height`; and when the two rectangles share
no pixel its width and height are 0 and no pixel is written. -/
theorem draw_eye_clip (eyes : EyeGeometry) (eye_num : Nat) (pupil_x pupil_y : Int)
    (rect : GdkRectangle) :
    (draw_eye eyes eye_num pupil_x pupil_y rect).dest =
      (gdk_rectangle_intersect
        { x := pupil_x - Int.tdiv eyes.pupil_width 2
          y := pupil_y - Int.tdiv eyes.pupil_height 2
          width := eyes.pupil_width
          height := eyes.pupil_height }
        { x := 0, y := 0, width := eyes.eye_width, height := eyes.eye_height } rect).2 ∧
    (∀ px py, (draw_eye eyes eye_num pupil_x pupil_y rect).writes px py ↔
      ((pupil_x - Int.tdiv eyes.pupil_width 2 ≤ px ∧
          px < pupil_x - Int.tdiv eyes.pupil_width 2 + eyes.pupil_width ∧
          pupil_y - Int.tdiv eyes.pupil_height 2 ≤ py ∧
          py < pupil_y - Int.tdiv eyes.pupil_height 2 + eyes.pupil_height) ∧
        (0 ≤ px ∧ px < eyes.eye_width ∧ 0 ≤ py ∧ py < eyes.eye_height))) ∧
    (∀ px py, (draw_eye eyes eye_num pupil_x pupil_y rect).writes px py →
      0 ≤ px ∧ px < eyes.eye_width ∧ 0 ≤ py ∧ py < eyes.eye_height) ∧
    ((∀ px py,
        ¬ ((pupil_x - Int.tdiv eyes.pupil_width 2 ≤ px ∧
            px < pupil_x - Int.tdiv eyes.pupil_width 2 + eyes.pupil_width ∧
            pupil_y - Int.tdiv eyes.pupil_height 2 ≤ py ∧
            py < pupil_y - Int.tdiv eyes.pupil_height 2 + eyes.pupil_height) ∧
          (0 ≤ px ∧ px < eyes.eye_width ∧ 0 ≤ py ∧ py < eyes.eye_height))) →
      (draw_eye eyes eye_num pupil_x pupil_y rect).dest.width = 0 ∧
        (draw_eye eyes eye_num pupil_x pupil_y rect).dest.height = 0 ∧
        ∀ px py, ¬ (draw_eye eyes eye_num pupil_x pupil_y rect).writes px py) := by
  generalize hqx : Int.tdiv eyes.pupil_width 2 = qx
  generalize hqy : Int.tdiv eyes.pupil_height 2 = qy
  have hiff : ∀ px py, (draw_eye eyes eye_num pupil_x pupil_y rect).writes px py ↔
      ((pupil_x - qx ≤ px ∧ px < pupil_x - qx + eyes.pupil_width ∧
          pupil_y - qy ≤ py ∧ py < pupil_y - qy + eyes.pupil_height) ∧
        (0 ≤ px ∧ px < eyes.eye_width ∧ 0 ≤ py ∧ py < eyes.eye_height)) := by
    intro px py
    simp only [Composite.writes, GdkRectangle.contains, draw_eye, draw_eye_r1, draw_eye_r2,
      gdk_rectangle_intersect, hqx, hqy]
    split_ifs with hc
    · simp only
      omega
    · simp only
      omega
  refine ⟨?_, hiff, ?_, ?_⟩
  · simp [draw_eye, draw_eye_r1, draw_eye_r2, hqx, hqy]
  · intro px py hw
    exact ((hiff px py).mp hw).2
  · intro hno
    have hnw : ∀ px py, ¬ (draw_eye eyes eye_num pupil_x pupil_y rect).writes px py := by
      intro px py hw
      exact hno px py ((hiff px py).mp hw)
    have hcond : ¬ (min (pupil_x - qx + eyes.pupil_width) (0 + eyes.eye_width) >
          max (pupil_x - qx) 0 ∧
        min (pupil_y - qy + eyes.pupil_height) (0 + eyes.eye_height) >
          max (pupil_y - qy) 0) := by
      intro hc
      apply hnw (max (pupil_x - qx) 0) (max (pupil_y - qy) 0)
      rw [hiff]
      omega
    refine ⟨?_, ?_, hnw⟩
    · simp only [draw_eye, draw_eye_r1, draw_eye_r2, gdk_rectangle_intersect, hqx, hqy,
        if_neg hcond]
    · simp only [draw_eye, draw_eye_r1, draw_eye_r2, gdk_rectangle_intersect, hqx, hqy,
        if_neg hcond]

/-- Claim C10 (the initial frame is not clipped): for a geometry with
`0 < pupil_width ≤ eye_width` and `0 < pupil_height ≤ eye_height`, `setup_eyes`
calls `draw_eye` once per eye with the centred pupil `(eye_width/2, eye_height/2)`,
and for that call the target rectangle
`{eye_width/2 - pupil_width/2, eye_height/2 - pupil_height/2, pupil_width, pupil_height}`
lies inside the socket bounds and is the clipped rectangle itself. -/
theorem setup_eyes_frame_unclipped (eyes : EyesPlugin)
    (hpw : 0 < eyes.pupil_width) (hpw2 : eyes.pupil_width ≤ eyes.eye_width)
    (hph : 0 < eyes.pupil_height) (hph2 : eyes.pupil_height ≤ eyes.eye_height) :
    (setup_eyes eyes).2 =
      (List.range eyes.num_eyes.toNat).map (fun i =>
        { eye_num := i
          pupil_x := Int.tdiv eyes.eye_width 2
          pupil_y := Int.tdiv eyes.eye_height 2 }) ∧
    ∀ (i : Nat) (rect : GdkRectangle),
      (draw_eye eyes.toEyeGeometry i (Int.tdiv eyes.eye_width 2) (Int.tdiv eyes.eye_height 2)
          rect).dest =
        { x := Int.tdiv eyes.eye_width 2 - Int.tdiv eyes.pupil_width 2
          y := Int.tdiv eyes.eye_height 2 - Int.tdiv eyes.pupil_height 2
          width := eyes.pupil_width
          height := eyes.pupil_height } ∧
      0 ≤ Int.tdiv eyes.eye_width 2 - Int.tdiv eyes.pupil_width 2 ∧
      Int.tdiv eyes.eye_width 2 - Int.tdiv eyes.pupil_width 2 + eyes.pupil_width
        ≤ eyes.eye_width ∧
      0 ≤ Int.tdiv eyes.eye_height 2 - Int.tdiv eyes.pupil_height 2 ∧
      Int.tdiv eyes.eye_height 2 - Int.tdiv eyes.pupil_height 2 + eyes.pupil_height
        ≤ eyes.eye_height := by
  refine ⟨by rw [setup_eyes_eq], ?_⟩
  intro i rect
  rw [Int.tdiv_eq_ediv (by omega) (by decide), Int.tdiv_eq_ediv (by omega) (by decide),
    Int.tdiv_eq_ediv (by omega) (by decide), Int.tdiv_eq_ediv (by omega) (by decide)]
  have hc : min (eyes.eye_width / 2 - eyes.pupil_width / 2 + eyes.pupil_width)
        (0 + eyes.eye_width) > max (eyes.eye_width / 2 - eyes.pupil_width / 2) 0 ∧
      min (eyes.eye_height / 2 - eyes.pupil_height / 2 + eyes.pupil_height)
        (0 + eyes.eye_height) > max (eyes.eye_height / 2 - eyes.pupil_height / 2) 0 := by
    omega
  refine ⟨?_, by omega, by omega, by omega, by omega⟩
  simp only [draw_eye, draw_eye_r1, draw_eye_r2, gdk_rectangle_intersect]
  rw [Int.tdiv_eq_ediv (by omega) (by decide), Int.tdiv_eq_ediv (by omega) (by decide)]
  rw [if_pos hc]
  simp only [GdkRectangle.mk.injEq]
  omega

/-- Witness of C10 on the 32x16 socket with an 8x8 pupil: the centred frame is
drawn in the rectangle `{12, 4, 8, 8}`. -/
theorem setup_eyes_frame_unclipped_witness :
    (setup_eyes one_eye).2 = [{ eye_num := 0, pupil_x := 16, pupil_y := 8 }] ∧
      (draw_eye one_eye.toEyeGeometry 0 16 8 { x := -7, y := 99, width := 3, height := 4 }).dest =
        { x := 12, y := 4, width := 8, height := 8 } :=
  ⟨(setup_eyes_frame_unclipped one_eye (by decide) (by decide) (by decide) (by decide)).1,
    ((setup_eyes_frame_unclipped one_eye (by decide) (by decide) (by decide) (by decide)).2 0
      { x := -7, y := 99, width := 3, height := 4 }).1⟩

end Eyes
